import Mathlib

/-!
Shallow embedding of `src/storage.py`: a Pulumi component `Storage` that
provisions an Azure storage account (`storage.StorageAccount "sa"`), a blob
container (`storage.BlobContainer f"{name}-blobcontainer"`), and resolves the
account's first access key via
`Output.all(resource_group_name, account.name).apply(list_storage_account_keys).apply(lambda ks: ks.keys[0].value)`.

Deferred Pulumi outputs are embedded as `Output α`: a list of resource
identifiers the output depends on (the data-dependency graph the orchestrator
sees) together with a resolution function over an environment `Env` of
provider responses. The orchestrator's scheduling is embedded as a validity
predicate on event traces: a request may be issued only after all its data
dependencies have resolved.
-/

namespace AzureStorage

/-- Errors arising while resolving deferred values: `indexOutOfRange` embeds a
Python `IndexError` (as raised by `keys[0]` on an empty list); `providerFailure`
embeds a rejection by the cloud control plane at point of use. -/
inductive Err where
  | indexOutOfRange : Err
  | providerFailure : String → Err
deriving DecidableEq, Repr

/-- One entry of the key list returned by `list_storage_account_keys`. -/
structure AccountKey where
  key_name : String
  value : String
deriving DecidableEq, Repr

/-- Result object of `storage.list_storage_account_keys`, with its `.keys` field. -/
structure ListKeysResult where
  keys : List AccountKey
deriving DecidableEq, Repr

/-- Environment of provider responses: how the upstream resource-group output
resolves, the provider-assigned storage-account name for the `"sa"` resource,
the provider-assigned container name for a requested container name, and the
key-listing call's response given resource group and account name. -/
structure Env where
  rgName : Except Err String
  saName : Except Err String
  containerName : String → Except Err String
  listKeys : String → String → Except Err ListKeysResult

/-- A deferred Pulumi output: the resource identifiers it depends on, and its
resolution against an environment of provider responses. -/
structure Output (α : Type) where
  deps : List String
  run : Env → Except Err α

/-- Lifting of a resource input that may be absent (Python `None` from
`args.get`) into a deferred value, as Pulumi lifts plain values into outputs. -/
def Output.ofInput : Option (Output String) → Output (Option String)
  | some o => ⟨o.deps, fun env => (o.run env).map some⟩
  | none => ⟨[], fun _ => Except.ok none⟩

/-- Embedding of `pulumi.Output.all(a, b)`: depends on both inputs and resolves
to the pair; a failure of either input fails the combined output. -/
def Output.all2 {α β : Type} (a : Output α) (b : Output β) : Output (α × β) :=
  ⟨a.deps ++ b.deps, fun env =>
    match a.run env, b.run env with
    | Except.ok x, Except.ok y => Except.ok (x, y)
    | Except.error e, _ => Except.error e
    | Except.ok _, Except.error e => Except.error e⟩

/-- Embedding of `.apply(f)` where the callback may itself fail (call a provider
API or raise): the result keeps the input's dependencies and runs the callback
once the input has resolved. -/
def Output.applyE {α β : Type} (o : Output α) (f : Env → α → Except Err β) : Output β :=
  ⟨o.deps, fun env =>
    match o.run env with
    | Except.ok x => f env x
    | Except.error e => Except.error e⟩

/-- Python list indexing `xs[i]`: `IndexError` when the index is out of range. -/
def pyIndex {α : Type} (xs : List α) (i : Nat) : Except Err α :=
  match xs.get? i with
  | some x => Except.ok x
  | none => Except.error Err.indexOutOfRange

/-- Embedding of `storage.list_storage_account_keys(resource_group_name=…, account_name=…)`:
a provider call; passing `None` for the required resource group is rejected by
the provider at point of use. -/
def list_storage_account_keys (env : Env) : Option String → String → Except Err ListKeysResult
  | some rg, accountName => env.listKeys rg accountName
  | none, _ => Except.error (Err.providerFailure "resource_group_name is required")

/-- Enum value `storage.SkuName.STANDARD_LRS` from pulumi_azure_native. -/
def SkuName.STANDARD_LRS : String := "Standard_LRS"

/-- Enum value `storage.Kind.STORAGE_V2` from pulumi_azure_native. -/
def Kind.STORAGE_V2 : String := "StorageV2"

/-- Embedding of `pulumi.ResourceOptions`: the `parent` field (resource identity
embedded as the component's instance name) plus representative further fields,
so that preservation of caller-set fields is expressible. -/
structure ResourceOptions where
  parent : Option String := none
  protect : Bool := false
  dependsOn : List String := []
deriving DecidableEq, Repr

/-- Embedding of the `StorageArgs` TypedDict: `args.get("resource_group_name")`
yields `None` when the key is missing, hence an `Option`. -/
structure StorageArgs where
  resource_group_name : Option (Output String) := none

/-- The `sku` argument dict of the storage-account request. -/
structure SkuArgs where
  name : String
deriving DecidableEq, Repr

/-- The creation request issued for `storage.StorageAccount "sa"` (lines 68-76). -/
structure StorageAccountReq where
  logicalName : String
  resource_group_name : Output (Option String)
  sku : SkuArgs
  kind : String
  opts : ResourceOptions

/-- The creation request issued for `storage.BlobContainer f"{name}-blobcontainer"`
(lines 78-83). -/
structure BlobContainerReq where
  logicalName : String
  account_name : Output String
  resource_group_name : Output (Option String)
  opts : ResourceOptions

/-- A request node of the orchestrator's dependency graph: its identifier and
the resource identifiers of its data dependencies. -/
structure Request where
  id : String
  deps : List String
deriving DecidableEq, Repr

/-- Orchestrator events: issuing a request, or a request's result resolving. -/
inductive Event where
  | issue : String → Event
  | resolve : String → Event
deriving DecidableEq, Repr

/-- The bundle produced by `Storage.__init__`: the component identity, the state
of the caller's options object after the call (it is mutated in place at line
64), the two resource creation requests, the three output attributes set at
lines 96-98, the dict passed to `register_outputs` (lines 100-104), and the
request nodes handed to the orchestrator. -/
structure Bundle where
  componentType : String
  componentName : String
  optsAfter : ResourceOptions
  account : StorageAccountReq
  blob_container : BlobContainerReq
  blob_container_name : Output String
  storage_account_name : Output String
  storage_account_primary_key : Output String
  registered_outputs : List (String × Output String)
  requests : List Request

/-- Embedding of the body of `Storage.__init__` (lines 59-104), line by line:
default options when `None`, `opts.parent = self`, `args.get`, the account
request with `Standard_LRS` / `StorageV2`, the container request consuming
`account.name`, the key resolution via `Output.all(...).apply(...).apply(...)`,
the three attribute assignments, and `register_outputs`. The body contains no
raise and no validation, so it is a total function. -/
def Storage.make (name : String) (args : StorageArgs) (opts0 : Option ResourceOptions) : Bundle :=
  let optsGiven : ResourceOptions :=
    match opts0 with
    | none => {}
    | some o => o
  let opts : ResourceOptions := { optsGiven with parent := some name }
  let resource_group_name : Option (Output String) := args.resource_group_name
  let rgIn : Output (Option String) := Output.ofInput resource_group_name
  let account : StorageAccountReq :=
    { logicalName := "sa"
      resource_group_name := rgIn
      sku := { name := SkuName.STANDARD_LRS }
      kind := Kind.STORAGE_V2
      opts := opts }
  let accountName : Output String := ⟨[account.logicalName], fun env => env.saName⟩
  let blob_container : BlobContainerReq :=
    { logicalName := name ++ "-blobcontainer"
      account_name := accountName
      resource_group_name := rgIn
      opts := opts }
  let containerName : Output String :=
    ⟨[blob_container.logicalName], fun env => env.containerName blob_container.logicalName⟩
  let primary_key : Output String :=
    ((Output.all2 rgIn accountName).applyE
        (fun env a => list_storage_account_keys env a.1 a.2)).applyE
      (fun _ accountKeys => (pyIndex accountKeys.keys 0).map AccountKey.value)
  { componentType := "x:index:Storage"
    componentName := name
    optsAfter := opts
    account := account
    blob_container := blob_container
    blob_container_name := containerName
    storage_account_name := accountName
    storage_account_primary_key := primary_key
    registered_outputs :=
      [("blob_container_name", containerName),
       ("storage_account_name", accountName),
       ("storage_account_primary_key", primary_key)]
    requests :=
      [⟨account.logicalName, rgIn.deps⟩,
       ⟨blob_container.logicalName, accountName.deps ++ rgIn.deps⟩,
       ⟨"list_keys", (Output.all2 rgIn accountName).deps⟩] }

/-- Construction viewed as fallible (a Python constructor may raise): the body of
`Storage.__init__` contains no raise statement and no validation, so the
embedding always succeeds. -/
def Storage.init (name : String) (args : StorageArgs) (opts0 : Option ResourceOptions) :
    Except Err Bundle :=
  Except.ok (Storage.make name args opts0)

/-- Whether some event among the first `i` of the trace resolves `d`. -/
def resolvedBefore (t : List Event) (i : Nat) (d : String) : Bool :=
  (List.range i).any (fun j => decide (t.get? j = some (Event.resolve d)))

/-- Whether some event among the first `i` of the trace issues `d`. -/
def issuedBefore (t : List Event) (i : Nat) (d : String) : Bool :=
  (List.range i).any (fun j => decide (t.get? j = some (Event.issue d)))

/-- Local validity of the event at position `i`: a result resolves only after
its request was issued, and a request is issued only after every one of its
data dependencies has resolved. -/
def eventOk (reqs : List Request) (t : List Event) (i : Nat) : Event → Bool
  | Event.resolve d => issuedBefore t i d
  | Event.issue d =>
      reqs.all (fun r =>
        if r.id = d then r.deps.all (fun x => resolvedBefore t i x) else true)

/-- A trace is a valid orchestrator execution of the given request graph when
every event in it is locally valid. -/
def validTrace (reqs : List Request) (t : List Event) : Bool :=
  (List.range t.length).all (fun i =>
    match t.get? i with
    | some e => eventOk reqs t i e
    | none => true)

/-- The standard upstream resource-group output used in concrete scenarios:
produced by a resource `"rg"`, resolving to the environment's `rgName`. -/
def rgOutputStd : Output String := ⟨["rg"], fun env => env.rgName⟩

/-- The standard arguments dict: `resource_group_name` present. -/
def argsStd : StorageArgs := { resource_group_name := some rgOutputStd }

/-- Mock environment of the end-to-end scenario: resource group `"rg-test"`,
account name `"sa123"`, container named as requested, one key `"KEY1"`. -/
def env9 : Env :=
  { rgName := Except.ok "rg-test"
    saName := Except.ok "sa123"
    containerName := fun n => Except.ok n
    listKeys := fun _ _ => Except.ok ⟨[⟨"key1", "KEY1"⟩]⟩ }

/-- Mock environment whose key-listing call returns an empty key sequence. -/
def envEmptyKeys : Env :=
  { rgName := Except.ok "rg-test"
    saName := Except.ok "sa123"
    containerName := fun n => Except.ok n
    listKeys := fun _ _ => Except.ok ⟨[]⟩ }

/-- Resolution of the primary-key output, in terms of the key list the provider
returns: once the resource group and account name have resolved, the chained
applies run the key-listing call and then index the `.keys` field at 0. -/
theorem primary_key_run (name rg sa : String) (rgOut : Output String)
    (opts0 : Option ResourceOptions) (env : Env) (ks : ListKeysResult)
    (hrg : rgOut.run env = Except.ok rg) (hsa : env.saName = Except.ok sa)
    (hkeys : env.listKeys rg sa = Except.ok ks) :
    (Storage.make name ⟨some rgOut⟩ opts0).storage_account_primary_key.run env
      = (pyIndex ks.keys 0).map AccountKey.value := by
  simp [Storage.make, Output.applyE, Output.all2, Output.ofInput, Except.map,
    list_storage_account_keys, hrg, hsa, hkeys]

/-- C1 counterexample: with the mock environment whose key-listing call returns
an empty key sequence, resolving `storage_account_primary_key` yields the
out-of-range indexing fault from `keys[0]`, not a `KeyListEmpty` error — no
such guard exists in the code. -/
theorem empty_keys_index_fault :
    (Storage.make "bundle1" argsStd none).storage_account_primary_key.run envEmptyKeys
      = Except.error Err.indexOutOfRange := rfl

/-- C1 (amended): whenever the key-listing call returns an empty key sequence,
resolving the primary key fails with the out-of-range indexing fault raised by
`accountKeys.keys[0]`; there is no explicit `KeyListEmpty` guard. -/
theorem empty_keys_fault (name rg sa : String) (rgOut : Output String)
    (opts0 : Option ResourceOptions) (env : Env)
    (hrg : rgOut.run env = Except.ok rg) (hsa : env.saName = Except.ok sa)
    (hkeys : env.listKeys rg sa = Except.ok ⟨[]⟩) :
    (Storage.make name ⟨some rgOut⟩ opts0).storage_account_primary_key.run env
      = Except.error Err.indexOutOfRange := by
  rw [primary_key_run name rg sa rgOut opts0 env ⟨[]⟩ hrg hsa hkeys]
  rfl

/-- Witness for C1 (amended) at the concrete empty-keys environment. -/
theorem empty_keys_fault_witness :
    rgOutputStd.run envEmptyKeys = Except.ok "rg-test" ∧
    envEmptyKeys.saName = Except.ok "sa123" ∧
    envEmptyKeys.listKeys "rg-test" "sa123" = Except.ok ⟨[]⟩ ∧
    (Storage.make "bundle1" argsStd none).storage_account_primary_key.run envEmptyKeys
      = Except.error Err.indexOutOfRange :=
  ⟨rfl, rfl, rfl,
    empty_keys_fault "bundle1" "rg-test" "sa123" rgOutputStd none envEmptyKeys rfl rfl rfl⟩

/-- C2: for every non-empty key sequence returned by the key-listing call, the
resolved `storage_account_primary_key` equals the value of the key at index 0,
and two resolutions against environments returning the same key sequence yield
the same key value. -/
theorem first_key_selection (name rg sa : String) (rgOut : Output String)
    (opts0 : Option ResourceOptions) (env env' : Env) (k : AccountKey) (rest : List AccountKey)
    (hrg : rgOut.run env = Except.ok rg) (hsa : env.saName = Except.ok sa)
    (hkeys : env.listKeys rg sa = Except.ok ⟨k :: rest⟩)
    (hrg' : rgOut.run env' = Except.ok rg) (hsa' : env'.saName = Except.ok sa)
    (hkeys' : env'.listKeys rg sa = Except.ok ⟨k :: rest⟩) :
    (Storage.make name ⟨some rgOut⟩ opts0).storage_account_primary_key.run env
      = Except.ok k.value ∧
    (Storage.make name ⟨some rgOut⟩ opts0).storage_account_primary_key.run env'
      = (Storage.make name ⟨some rgOut⟩ opts0).storage_account_primary_key.run env := by
  have h1 := primary_key_run name rg sa rgOut opts0 env ⟨k :: rest⟩ hrg hsa hkeys
  have h2 := primary_key_run name rg sa rgOut opts0 env' ⟨k :: rest⟩ hrg' hsa' hkeys'
  exact ⟨h1, h2.trans h1.symm⟩

/-- Witness for C2 at the concrete end-to-end environment, used twice. -/
theorem first_key_selection_witness :
    rgOutputStd.run env9 = Except.ok "rg-test" ∧
    env9.saName = Except.ok "sa123" ∧
    env9.listKeys "rg-test" "sa123" = Except.ok ⟨[⟨"key1", "KEY1"⟩]⟩ ∧
    ((Storage.make "bundle1" argsStd none).storage_account_primary_key.run env9
        = Except.ok "KEY1" ∧
      (Storage.make "bundle1" argsStd none).storage_account_primary_key.run env9
        = (Storage.make "bundle1" argsStd none).storage_account_primary_key.run env9) :=
  ⟨rfl, rfl, rfl,
    first_key_selection "bundle1" "rg-test" "sa123" rgOutputStd none env9 env9
      ⟨"key1", "KEY1"⟩ [] rfl rfl rfl rfl rfl rfl⟩

/-- C4 counterexample: constructing the bundle with the resource-group reference
missing from the arguments dict succeeds — no `InvalidConfiguration` error is
surfaced at construction time, because `__init__` performs no validation. -/
theorem missing_rg_constructs_ok :
    (Storage.init "bundle1" { resource_group_name := none } none).isOk = true := rfl

/-- C4 (amended): construction never validates the resource-group reference;
with it missing, construction still succeeds and the absent value is passed
through, so rejection surfaces only provider-side at point of use, when the
key-listing call runs. -/
theorem no_construction_validation (name : String) (opts0 : Option ResourceOptions)
    (env : Env) (sa : String) (hsa : env.saName = Except.ok sa) :
    (Storage.init name { resource_group_name := none } opts0).isOk = true ∧
    (Storage.make name { resource_group_name := none } opts0).storage_account_primary_key.run env
      = Except.error (Err.providerFailure "resource_group_name is required") := by
  refine ⟨rfl, ?_⟩
  simp [Storage.make, Output.applyE, Output.all2, Output.ofInput,
    list_storage_account_keys, hsa]

/-- Witness for C4 (amended) at the concrete end-to-end environment. -/
theorem no_construction_validation_witness :
    env9.saName = Except.ok "sa123" ∧
    ((Storage.init "bundle1" { resource_group_name := none } none).isOk = true ∧
      (Storage.make "bundle1" { resource_group_name := none } none).storage_account_primary_key.run env9
        = Except.error (Err.providerFailure "resource_group_name is required")) :=
  ⟨rfl, no_construction_validation "bundle1" none env9 "sa123" rfl⟩

/-- C5: every bundle instantiation issues the storage-account creation request
with SKU name `Standard_LRS` and kind `StorageV2`. -/
theorem account_sku_and_kind (name : String) (args : StorageArgs) (opts0 : Option ResourceOptions) :
    (Storage.make name args opts0).account.sku.name = "Standard_LRS" ∧
    (Storage.make name args opts0).account.kind = "StorageV2" :=
  ⟨rfl, rfl⟩

/-- C6: the blob container's requested name is the instance name with the
suffix `-blobcontainer` appended. -/
theorem container_name_suffix (name : String) (args : StorageArgs) (opts0 : Option ResourceOptions) :
    (Storage.make name args opts0).blob_container.logicalName = name ++ "-blobcontainer" :=
  rfl

/-- C9: the end-to-end scenario — instance `"bundle1"`, resource group
`"rg-test"`, account name `"sa123"`, one key `"KEY1"` — resolves the three
outputs to `"bundle1-blobcontainer"`, `"sa123"` and `"KEY1"`. -/
theorem end_to_end_scenario :
    (Storage.make "bundle1" argsStd none).blob_container_name.run env9
      = Except.ok "bundle1-blobcontainer" ∧
    (Storage.make "bundle1" argsStd none).storage_account_name.run env9
      = Except.ok "sa123" ∧
    (Storage.make "bundle1" argsStd none).storage_account_primary_key.run env9
      = Except.ok "KEY1" :=
  ⟨rfl, rfl, rfl⟩

/-- C10: when the caller passes an options object, the constructor mutates that
object in place, setting its `parent` to the bundle (so a caller-specified
parent is silently overridden while all other fields are kept), and passes the
very same mutated object to both child resources. -/
theorem opts_mutation (name : String) (args : StorageArgs) (o : ResourceOptions) :
    (Storage.make name args (some o)).optsAfter = { o with parent := some name } ∧
    (Storage.make name args (some o)).account.opts
      = (Storage.make name args (some o)).optsAfter ∧
    (Storage.make name args (some o)).blob_container.opts
      = (Storage.make name args (some o)).optsAfter :=
  ⟨rfl, rfl, rfl⟩

/-- In a valid trace, a request of the graph can have been issued only after
each of its data dependencies resolved at an earlier position. -/
theorem issue_requires_resolved {reqs : List Request} {t : List Event} {r : Request}
    {i : Nat} {d cid : String}
    (hv : validTrace reqs t = true) (hr : r ∈ reqs) (hid : r.id = cid) (hd : d ∈ r.deps)
    (hi : t.get? i = some (Event.issue cid)) :
    ∃ j, j < i ∧ t.get? j = some (Event.resolve d) := by
  have hlen : i < t.length := by
    by_contra hcon
    rw [List.get?_eq_none.mpr (Nat.le_of_not_lt hcon)] at hi
    exact Option.noConfusion hi
  have h0 := List.all_eq_true.mp hv i (List.mem_range.mpr hlen)
  rw [hi] at h0
  have h1 : eventOk reqs t i (Event.issue cid) = true := h0
  have h2 : (if r.id = cid then r.deps.all (fun x => resolvedBefore t i x) else true) = true :=
    List.all_eq_true.mp h1 r hr
  rw [if_pos hid] at h2
  have h3 : resolvedBefore t i d = true := List.all_eq_true.mp h2 d hd
  obtain ⟨j, hj, hjt⟩ := List.any_eq_true.mp h3
  exact ⟨j, List.mem_range.mp hj, of_decide_eq_true hjt⟩

/-- C3: in every valid orchestrator execution of the bundle's request graph,
the blob-container creation request consumes the account's deferred name as a
data dependency, and it is never issued before the account's result has
resolved. -/
theorem container_after_account (name : String) (args : StorageArgs)
    (opts0 : Option ResourceOptions) (t : List Event) (i : Nat)
    (hv : validTrace (Storage.make name args opts0).requests t = true)
    (hi : t.get? i = some (Event.issue (name ++ "-blobcontainer"))) :
    "sa" ∈ (Storage.make name args opts0).blob_container.account_name.deps ∧
    ∃ j, j < i ∧ t.get? j = some (Event.resolve "sa") := by
  refine ⟨List.mem_cons_self _ _, ?_⟩
  exact issue_requires_resolved
    (r := ⟨name ++ "-blobcontainer", "sa" :: (Output.ofInput args.resource_group_name).deps⟩)
    hv (List.mem_cons_of_mem _ (List.mem_cons_self _ _)) rfl (List.mem_cons_self _ _) hi

/-- Demonstration trace for C3: the resource group and the account resolve,
then the container request is issued at position 4. -/
def demoTrace : List Event :=
  [Event.issue "rg", Event.resolve "rg", Event.issue "sa", Event.resolve "sa",
   Event.issue "bundle1-blobcontainer"]

/-- Witness for C3 on a concrete valid trace. -/
theorem container_after_account_witness :
    validTrace (Storage.make "bundle1" argsStd none).requests demoTrace = true ∧
    demoTrace.get? 4 = some (Event.issue ("bundle1" ++ "-blobcontainer")) ∧
    ("sa" ∈ (Storage.make "bundle1" argsStd none).blob_container.account_name.deps ∧
      ∃ j, j < 4 ∧ demoTrace.get? j = some (Event.resolve "sa")) :=
  ⟨by decide, by decide,
    container_after_account "bundle1" argsStd none demoTrace 4 (by decide) (by decide)⟩

/-- C8: in every valid orchestrator execution in which the storage-account
creation never resolves (it fails or is cancelled, so no successful resolution
event for `"sa"` occurs), neither the blob-container creation request nor the
key-listing query is ever issued. -/
theorem no_downstream_after_failure (name : String) (args : StorageArgs)
    (opts0 : Option ResourceOptions) (t : List Event)
    (hv : validTrace (Storage.make name args opts0).requests t = true)
    (hfail : Event.resolve "sa" ∉ t) :
    Event.issue (name ++ "-blobcontainer") ∉ t ∧ Event.issue "list_keys" ∉ t := by
  constructor
  · intro hmem
    obtain ⟨i, hi⟩ := List.mem_iff_get?.mp hmem
    obtain ⟨j, _, hj⟩ := issue_requires_resolved
      (r := ⟨name ++ "-blobcontainer", "sa" :: (Output.ofInput args.resource_group_name).deps⟩)
      hv (List.mem_cons_of_mem _ (List.mem_cons_self _ _)) rfl (List.mem_cons_self _ _) hi
    exact hfail (List.get?_mem hj)
  · intro hmem
    obtain ⟨i, hi⟩ := List.mem_iff_get?.mp hmem
    obtain ⟨j, _, hj⟩ := issue_requires_resolved
      (r := ⟨"list_keys", (Output.ofInput args.resource_group_name).deps ++ ["sa"]⟩)
      hv (List.mem_cons_of_mem _ (List.mem_cons_of_mem _ (List.mem_cons_self _ _))) rfl
      (List.mem_append_right _ (List.mem_cons_self _ _)) hi
    exact hfail (List.get?_mem hj)

/-- Demonstration trace for C8: the account request is issued but its result
never resolves. -/
def demoTraceFail : List Event :=
  [Event.issue "rg", Event.resolve "rg", Event.issue "sa"]

/-- Witness for C8 on a concrete valid trace without an account resolution. -/
theorem no_downstream_after_failure_witness :
    validTrace (Storage.make "bundle1" argsStd none).requests demoTraceFail = true ∧
    Event.resolve "sa" ∉ demoTraceFail ∧
    (Event.issue ("bundle1" ++ "-blobcontainer") ∉ demoTraceFail ∧
      Event.issue "list_keys" ∉ demoTraceFail) :=
  ⟨by decide, by decide,
    no_downstream_after_failure "bundle1" argsStd none demoTraceFail (by decide) (by decide)⟩

/-- C7: the bundle registers exactly the three named outputs
`blob_container_name`, `storage_account_name`, `storage_account_primary_key`
and no others, and against an environment where the provider calls succeed
with a non-empty key list, each registered output resolves. -/
theorem three_outputs (name rg sa cn : String) (rgOut : Output String)
    (opts0 : Option ResourceOptions) (env : Env) (k : AccountKey) (rest : List AccountKey)
    (hrg : rgOut.run env = Except.ok rg) (hsa : env.saName = Except.ok sa)
    (hcn : env.containerName (name ++ "-blobcontainer") = Except.ok cn)
    (hkeys : env.listKeys rg sa = Except.ok ⟨k :: rest⟩) :
    (Storage.make name ⟨some rgOut⟩ opts0).registered_outputs.map Prod.fst
      = ["blob_container_name", "storage_account_name", "storage_account_primary_key"] ∧
    ∀ p ∈ (Storage.make name ⟨some rgOut⟩ opts0).registered_outputs,
      ∃ v, p.2.run env = Except.ok v := by
  refine ⟨rfl, ?_⟩
  intro p hp
  have hpk := primary_key_run name rg sa rgOut opts0 env ⟨k :: rest⟩ hrg hsa hkeys
  rcases List.mem_cons.mp hp with h | hp'
  · exact h ▸ ⟨cn, hcn⟩
  rcases List.mem_cons.mp hp' with h | hp''
  · exact h ▸ ⟨sa, hsa⟩
  rcases List.mem_cons.mp hp'' with h | hp'''
  · exact h ▸ ⟨k.value, hpk⟩
  · exact absurd hp''' (List.not_mem_nil p)

/-- Witness for C7 at the concrete end-to-end environment. -/
theorem three_outputs_witness :
    rgOutputStd.run env9 = Except.ok "rg-test" ∧
    env9.saName = Except.ok "sa123" ∧
    env9.containerName ("bundle1" ++ "-blobcontainer") = Except.ok "bundle1-blobcontainer" ∧
    env9.listKeys "rg-test" "sa123" = Except.ok ⟨[⟨"key1", "KEY1"⟩]⟩ ∧
    ((Storage.make "bundle1" argsStd none).registered_outputs.map Prod.fst
        = ["blob_container_name", "storage_account_name", "storage_account_primary_key"] ∧
      ∀ p ∈ (Storage.make "bundle1" argsStd none).registered_outputs,
        ∃ v, p.2.run env9 = Except.ok v) :=
  ⟨rfl, rfl, rfl, rfl,
    three_outputs "bundle1" "rg-test" "sa123" "bundle1-blobcontainer" rgOutputStd none env9
      ⟨"key1", "KEY1"⟩ [] rfl rfl rfl rfl⟩

end AzureStorage
